import Mathlib

/-!
Verification of the training-session HTTP service (`index.js` routes and
`lib.js` database configuration) against its natural-language specification.

The JavaScript handlers are shallowly embedded: the MySQL tables become
lists of row structures, `db.query`/`db.execute` calls become pure
functions on that state, and each Express handler becomes a function from
the database state and the parsed request to a response value plus the new
state.  External collaborators (bcrypt, jsonwebtoken, the schema-validation
middleware) are modelled from their contracts in the specification where
their source is not part of the repository.
-/

namespace TP

/-- Configuration passed to mysql2 createConnection in `connectDb`
(`lib.js`): the fields that influence observable behaviour. -/
structure DbConfig where
  timezone : String
  dateStrings : Bool
deriving Repr, DecidableEq

/-- The connection configuration used by `connectDb` in `lib.js`:
timezone "+01:00" and dateStrings set to true. -/
def connectDbConfig : DbConfig :=
  { timezone := "+01:00", dateStrings := true }

/-- A row of the `user` table: id, name, email, password (the stored
bcrypt hash), role. -/
structure UserRow where
  id : Nat
  name : String
  email : String
  password : String
  role : String
deriving Repr, DecidableEq

/-- A row of the `session` table: id, title, date, formateur_id.
The date column is kept as its calendar-date text; how it is delivered
to JavaScript (text or Date object) is decided by the driver's
dateStrings flag, modelled separately below. -/
structure SessionRow where
  id : Nat
  title : String
  date : String
  formateur_id : Nat
deriving Repr, DecidableEq

/-- A row of the `emargement` table: id, session_id, etudiant_id, status. -/
structure EmargementRow where
  id : Nat
  session_id : Nat
  etudiant_id : Nat
  status : String
deriving Repr, DecidableEq

/-- The whole relational store, with the auto-increment counters of the
three tables. -/
structure Db where
  users : List UserRow
  sessions : List SessionRow
  emargements : List EmargementRow
  nextUserId : Nat
  nextSessionId : Nat
  nextEmargementId : Nat
deriving Repr, DecidableEq

/-- Result descriptor returned by mysql2 for execute: insertId is the
auto-increment id for an INSERT and 0 for UPDATE and DELETE;
affectedRows counts the touched rows. -/
structure ExecResult where
  insertId : Nat
  affectedRows : Nat
deriving Repr, DecidableEq

/-- Modelled from the spec: the bcrypt Password Hashing Service
(external collaborator, outside the repository): a salted one-way
`hash(plaintext) -> hash_token` with cost factor 10, modelled as an
injective tagging of the plaintext. -/
def bcryptHash (plaintext : String) : String :=
  "bcrypt-10-" ++ plaintext

/-- Modelled from the spec: `verify(plaintext, hash_token) -> boolean`;
a mismatch returns false and never throws. -/
def bcryptCompare (plaintext hashToken : String) : Bool :=
  hashToken == bcryptHash plaintext

/-- The payload `jwt.sign` receives in the login handler:
`id` and `role` of the authenticated user. -/
structure Payload where
  id : Nat
  role : String
deriving Repr, DecidableEq

/-- A signed token: payload plus the signing key, modelling
`jwt.sign(payload, key)`. -/
structure Token where
  payload : Payload
  key : String
deriving Repr, DecidableEq

/-- The process-wide signing secret `process.env.JWT_KEY`, read once at
startup and never mutated. -/
def jwtKey : String := "JWT_KEY"

/-- Model of `jwt.sign(payload, key)`. -/
def jwtSign (payload : Payload) (key : String) : Token :=
  { payload := payload, key := key }

/-- The SELECT of the login handler:
`SELECT id, password, role FROM user WHERE email = ?`. -/
def selectUsersByEmail (db : Db) (email : String) : List UserRow :=
  db.users.filter (fun u => u.email == email)

/-- The SELECT of the update handler:
`SELECT id from user where name = ?`. -/
def selectUsersByName (db : Db) (name : String) : List UserRow :=
  db.users.filter (fun u => u.name == name)

/-- Parsed body accepted by loginSchema: email and password. -/
structure LoginData where
  email : String
  password : String
deriving Repr, DecidableEq

/-- Response of the POST /auth/login handler.  The two failure
constructors carry the literal body text the handler sends with
status 401; only the success constructor carries a token. -/
inductive LoginResp where
  | userNotFound401
  | unauthorized401
  | ok200 (token : Token)
deriving Repr, DecidableEq

/-- HTTP status of a login response. -/
def LoginResp.status : LoginResp → Nat
  | .userNotFound401 => 401
  | .unauthorized401 => 401
  | .ok200 _ => 200

/-- The POST /auth/login handler: looks the email up, returns 401 when
no row matches, compares the bcrypt hash, returns 401 on mismatch, and
otherwise signs and returns a token embedding id and role of row 0. -/
def loginHandler (db : Db) (data : LoginData) : LoginResp :=
  let rows := selectUsersByEmail db data.email
  match rows with
  | [] => .userNotFound401
  | u :: _ =>
    let isRightPassword := bcryptCompare data.password u.password
    if !isRightPassword then
      .unauthorized401
    else
      .ok200 (jwtSign { id := u.id, role := u.role } jwtKey)

/-- Parsed body accepted by userSchema: name, email, password, role. -/
structure UserData where
  name : String
  email : String
  password : String
  role : String
deriving Repr, DecidableEq

/-- Body returned by a successful signup: id, name, email, role. -/
structure SignupOut where
  id : Nat
  name : String
  email : String
  role : String
deriving Repr, DecidableEq

/-- Response of the POST /auth/signup handler. -/
inductive SignupResp where
  | ok200 (out : SignupOut)
  | err500 (message : String)
deriving Repr, DecidableEq

/-- The INSERT of the signup handler.  The store enforces email
uniqueness (spec section 3), so inserting a duplicate email fails;
otherwise the row gets the next auto-increment id. -/
def execInsertUser (db : Db) (name email password role : String) :
    Except String (ExecResult × Db) :=
  if db.users.any (fun u => u.email == email) then
    .error "ER_DUP_ENTRY"
  else
    .ok ({ insertId := db.nextUserId, affectedRows := 1 },
      { db with
        users := db.users ++
          [{ id := db.nextUserId, name := name, email := email,
             password := password, role := role }],
        nextUserId := db.nextUserId + 1 })

/-- The POST /auth/signup handler: hashes the password with cost 10,
inserts the user, answers 200 with id, name, email and role, or 500
with the store error message. -/
def signupHandler (db : Db) (data : UserData) : SignupResp × Db :=
  let hashedPassword := bcryptHash data.password
  match execInsertUser db data.name data.email hashedPassword data.role with
  | .error msg => (.err500 msg, db)
  | .ok (result, db2) =>
    (.ok200 { id := result.insertId, name := data.name,
              email := data.email, role := data.role }, db2)

/-- A JavaScript Date value as far as the handlers observe it: the
calendar-date components that `toISOString().split("T")[0]` exposes. -/
structure JsDate where
  year : Nat
  month : Nat
  day : Nat
deriving Repr, DecidableEq

/-- One decimal digit character: the final digit of `n`, as produced by
the zero-padded fields of `toISOString`. -/
def digitChar (n : Nat) : Char :=
  match n % 10 with
  | 0 => '0' | 1 => '1' | 2 => '2' | 3 => '3' | 4 => '4'
  | 5 => '5' | 6 => '6' | 7 => '7' | 8 => '8' | _ => '9'

/-- Zero-padded two-digit decimal rendering (month and day fields of an
ISO date string). -/
def pad2 (n : Nat) : String :=
  String.mk [digitChar (n / 10), digitChar n]

/-- Zero-padded four-digit decimal rendering (year field of an ISO date
string). -/
def pad4 (n : Nat) : String :=
  String.mk [digitChar (n / 1000), digitChar (n / 100),
             digitChar (n / 10), digitChar n]

/-- The date part of `toISOString()`: what `split("T")[0]` leaves,
namely YYYY-MM-DD. -/
def JsDate.isoDatePart (d : JsDate) : String :=
  pad4 d.year ++ "-" ++ pad2 d.month ++ "-" ++ pad2 d.day

/-- A JSON-able cell value of a delivered row: text, number, or a Date
object (the only three the session rows can hold). -/
inductive Value where
  | vStr (s : String)
  | vNum (n : Nat)
  | vDate (d : JsDate)
deriving Repr, DecidableEq

/-- Tests whether a cell value is a Date object: the
`row[key] instanceof Date` test of the handlers. -/
def Value.isDate : Value → Bool
  | .vDate _ => true
  | _ => false

/-- A row as delivered to JavaScript: ordered column-name/value pairs. -/
abbrev Row : Type := List (String × Value)

/-- Character-level check for the YYYY-MM-DD shape. -/
def isYMDList : List Char → Bool
  | [y1, y2, y3, y4, h1, m1, m2, h2, d1, d2] =>
    y1.isDigit && y2.isDigit && y3.isDigit && y4.isDigit &&
    (h1 == '-') && m1.isDigit && m2.isDigit && (h2 == '-') &&
    d1.isDigit && d2.isDigit
  | _ => false

/-- A string is in YYYY-MM-DD calendar-date text form. -/
def isYMD (s : String) : Bool :=
  isYMDList s.toList

/-- Numeric value of a decimal digit character. -/
def digitVal (c : Char) : Nat :=
  c.toNat - 48

/-- How the mysql2 driver materialises a stored DATE when dateStrings is
false: a Date object carrying the stored calendar date (delivered in
the configured timezone).  Non-date text falls back to the epoch date,
a case the valid stored dates never reach. -/
def parseStoredDate (s : String) : JsDate :=
  match s.toList with
  | [y1, y2, y3, y4, '-', m1, m2, '-', d1, d2] =>
    { year := digitVal y1 * 1000 + digitVal y2 * 100 +
        digitVal y3 * 10 + digitVal y4,
      month := digitVal m1 * 10 + digitVal m2,
      day := digitVal d1 * 10 + digitVal d2 }
  | _ => { year := 1970, month := 1, day := 1 }

/-- Delivery of one `session` row by the driver for `SELECT *`: with
dateStrings the date column arrives as its raw text, without it the
column arrives as a Date object. -/
def sessionRecord (dateStrings : Bool) (s : SessionRow) : Row :=
  [("id", .vNum s.id),
   ("title", .vStr s.title),
   ("date", if dateStrings then .vStr s.date
            else .vDate (parseStoredDate s.date)),
   ("formateur_id", .vNum s.formateur_id)]

/-- The per-cell body of the date-formatting loops of GET /sessions and
GET /sessions/:id: a Date object is replaced by the date part of its
ISO rendering, anything else is left alone. -/
def formatValue : Value → Value
  | .vDate d => .vStr d.isoDatePart
  | v => v

/-- The per-row date-formatting loop (`for (const key in row)`). -/
def formatRow (row : Row) : Row :=
  row.map (fun kv => (kv.1, formatValue kv.2))

/-- The `rows.map` over the formatting loop in both GET handlers. -/
def formatRows (rows : List Row) : List Row :=
  rows.map formatRow

/-- The GET /sessions handler: select every session row, format the
dates, answer the rows (status 200, no authorization). -/
def listSessionsHandler (db : Db) : List Row :=
  let rows := db.sessions.map (sessionRecord connectDbConfig.dateStrings)
  formatRows rows

/-- Response of the GET /sessions/:id handler. -/
inductive GetSessionResp where
  | notFound404
  | ok200 (rows : List Row)
deriving Repr, DecidableEq

/-- HTTP status of a GET /sessions/:id response. -/
def GetSessionResp.status : GetSessionResp → Nat
  | .notFound404 => 404
  | .ok200 _ => 200

/-- The GET /sessions/:id handler: select the rows with the given id,
404 when none, otherwise format the dates and answer the row list. -/
def getSessionHandler (db : Db) (id : Nat) : GetSessionResp :=
  let rows := (db.sessions.filter (fun s => s.id == id)).map
    (sessionRecord connectDbConfig.dateStrings)
  if rows.length == 0 then
    .notFound404
  else
    .ok200 (formatRows rows)

/-- Parsed body accepted by sessionsSchema: email, title (at least 4
chars), date_session (YYYY-MM-DD string). -/
structure SessionsData where
  email : String
  title : String
  date_session : String
deriving Repr, DecidableEq

/-- Body returned by a successful POST /sessions. -/
structure CreateSessionOut where
  id : Nat
  title : String
  date : String
  id_formateur : Nat
deriving Repr, DecidableEq

/-- Response of the POST /sessions handler. -/
inductive CreateSessionResp where
  | ok200 (out : CreateSessionOut)
  | err500 (message : String)
deriving Repr, DecidableEq

/-- HTTP status of a POST /sessions response. -/
def CreateSessionResp.status : CreateSessionResp → Nat
  | .ok200 _ => 200
  | .err500 _ => 500

/-- The INSERT of the POST /sessions handler: the new row receives the
next auto-increment id. -/
def execInsertSession (db : Db) (title date : String)
    (formateurId : Nat) : ExecResult × Db :=
  ({ insertId := db.nextSessionId, affectedRows := 1 },
   { db with
     sessions := db.sessions ++
       [{ id := db.nextSessionId, title := title, date := date,
          formateur_id := formateurId }],
     nextSessionId := db.nextSessionId + 1 })

/-- The POST /sessions handler: resolves the body email to a user id
outside the try block, then inside the try reads `rows[0].id` — when no
user matched, that access throws a TypeError which the catch turns into
a 500 response; otherwise inserts the session and answers 200. -/
def createSessionHandler (db : Db) (data : SessionsData) :
    CreateSessionResp × Db :=
  let rows := selectUsersByEmail db data.email
  match rows with
  | [] =>
    (.err500 "TypeError: cannot read property id of undefined", db)
  | u :: _ =>
    let id_formateur := u.id
    let (result, db2) := execInsertSession db data.title
      data.date_session id_formateur
    (.ok200 { id := result.insertId, title := data.title,
              date := data.date_session, id_formateur := id_formateur },
     db2)

/-- Parsed body accepted by modifSessionsSchema: newTitle,
newDate_session, newFormateurName. -/
structure ModifSessionsData where
  newTitle : String
  newDate_session : String
  newFormateurName : String
deriving Repr, DecidableEq

/-- Body returned by a successful PUT /sessions/:id — note the handler
echoes `result.insertId`, which is 0 for an UPDATE statement. -/
structure UpdateSessionOut where
  id : Nat
  new_title : String
  new_date : String
  new_id_formateur : Nat
deriving Repr, DecidableEq

/-- Response of the PUT /sessions/:id handler. -/
inductive UpdateSessionResp where
  | notFound404
  | ok200 (out : UpdateSessionOut)
  | err500 (message : String)
deriving Repr, DecidableEq

/-- HTTP status of a PUT /sessions/:id response. -/
def UpdateSessionResp.status : UpdateSessionResp → Nat
  | .notFound404 => 404
  | .ok200 _ => 200
  | .err500 _ => 500

/-- The UPDATE of the PUT /sessions/:id handler: overwrites title, date
and formateur_id of every row with the given id; affectedRows counts
the matching rows and insertId is 0 for an UPDATE. -/
def execUpdateSession (db : Db) (title date : String)
    (formateurId idSession : Nat) : ExecResult × Db :=
  let affected := (db.sessions.filter (fun s => s.id == idSession)).length
  ({ insertId := 0, affectedRows := affected },
   { db with
     sessions := db.sessions.map (fun s =>
       if s.id == idSession then
         { s with title := title, date := date,
                  formateur_id := formateurId }
       else s) })

/-- The PUT /sessions/:id handler: resolves the new trainer by name
(404 when absent), runs the UPDATE, and answers 200 without inspecting
affectedRows — a nonexistent session id still yields 200. -/
def updateSessionHandler (db : Db) (idSession : Nat)
    (data : ModifSessionsData) : UpdateSessionResp × Db :=
  let formateur := selectUsersByName db data.newFormateurName
  match formateur with
  | [] => (.notFound404, db)
  | f :: _ =>
    let id_formateur := f.id
    let (result, db2) := execUpdateSession db data.newTitle
      data.newDate_session id_formateur idSession
    (.ok200 { id := result.insertId, new_title := data.newTitle,
              new_date := data.newDate_session,
              new_id_formateur := id_formateur }, db2)

/-- Response of the DELETE /sessions/:id handler; the 200 body is
`id: result.insertId` (0 for a DELETE statement). -/
inductive DeleteSessionResp where
  | ok200 (id : Nat)
  | err500 (message : String)
deriving Repr, DecidableEq

/-- HTTP status of a DELETE /sessions/:id response. -/
def DeleteSessionResp.status : DeleteSessionResp → Nat
  | .ok200 _ => 200
  | .err500 _ => 500

/-- The DELETE of the DELETE /sessions/:id handler: removes every row
with the given id; affectedRows counts the removed rows and insertId is
0 for a DELETE.  Deleting an absent id affects zero rows and is not an
error. -/
def execDeleteSession (db : Db) (idSession : Nat) : ExecResult × Db :=
  let remaining := db.sessions.filter (fun s => !(s.id == idSession))
  ({ insertId := 0,
     affectedRows := db.sessions.length - remaining.length },
   { db with sessions := remaining })

/-- The DELETE /sessions/:id handler: runs the DELETE and answers 200
with `id: result.insertId` whatever the affected-row count. -/
def deleteSessionHandler (db : Db) (idSession : Nat) :
    DeleteSessionResp × Db :=
  let (result, db2) := execDeleteSession db idSession
  (.ok200 result.insertId, db2)

/-- Parsed body accepted by emargementSchema: email. -/
structure EmargementData where
  email : String
deriving Repr, DecidableEq

/-- Body returned by a successful POST /sessions/:id/emargement. -/
structure EmargementOut where
  id : Nat
  id_session : Nat
  id_etudiant : Nat
  status : String
deriving Repr, DecidableEq

/-- Response of the POST /sessions/:id/emargement handler. -/
inductive EmargementResp where
  | notFound404
  | ok200 (out : EmargementOut)
  | err500 (message : String)
deriving Repr, DecidableEq

/-- HTTP status of a POST /sessions/:id/emargement response. -/
def EmargementResp.status : EmargementResp → Nat
  | .notFound404 => 404
  | .ok200 _ => 200
  | .err500 _ => 500

/-- The INSERT of the emargement handler: unconditionally appends a new
attendance row with status "1"; no uniqueness constraint exists on
(session_id, etudiant_id). -/
def execInsertEmargement (db : Db) (sessionId etudiantId : Nat) :
    ExecResult × Db :=
  ({ insertId := db.nextEmargementId, affectedRows := 1 },
   { db with
     emargements := db.emargements ++
       [{ id := db.nextEmargementId, session_id := sessionId,
          etudiant_id := etudiantId, status := "1" }],
     nextEmargementId := db.nextEmargementId + 1 })

/-- The POST /sessions/:id/emargement handler: resolves the body email
to a user id (404 when absent), then inserts an attendance row for that
user and answers 200.  The authenticated caller's identity is never
consulted. -/
def emargementHandler (db : Db) (idSession : Nat)
    (data : EmargementData) : EmargementResp × Db :=
  let rows := selectUsersByEmail db data.email
  match rows with
  | [] => (.notFound404, db)
  | u :: _ =>
    let id_etudiant := u.id
    let (result, db2) := execInsertEmargement db idSession id_etudiant
    (.ok200 { id := result.insertId, id_session := idSession,
              id_etudiant := id_etudiant, status := "1" }, db2)

/-- Count of attendance rows recorded for a (session, trainee) pair. -/
def attendanceCount (db : Db) (sessionId etudiantId : Nat) : Nat :=
  (db.emargements.filter (fun e =>
    e.session_id == sessionId && e.etudiant_id == etudiantId)).length

/-- Failure answers of the role-gating middleware. -/
inductive AuthFail where
  | unauthenticated401
  | forbidden403
deriving Repr, DecidableEq

/-- Modelled from the spec: `verify(token)` of the Token Service
(section 4.2) checks the signature against the process-wide secret and
yields the embedded payload, failing when the signature does not
verify. -/
def jwtVerify (t : Token) : Except String Payload :=
  if t.key == jwtKey then .ok t.payload else .error "invalid signature"

/-- Outcome of a role-gating middleware: either a failure response or
the verified payload attached to the request context. -/
inductive AuthResult where
  | fail (e : AuthFail)
  | ok (p : Payload)
deriving Repr, DecidableEq

/-- Modelled from the spec: the `checkAuthEtud` middleware
(`middleware.js` is not part of the repository sources): section 4.3,
requireRole(trainee) — 401 when no token is present or it fails
verification, 403 when the verified role is not etudiant, and on
success the payload is attached to the request context. -/
def checkAuthEtud (tok : Option Token) : AuthResult :=
  match tok with
  | none => .fail .unauthenticated401
  | some t =>
    match jwtVerify t with
    | .error _ => .fail .unauthenticated401
    | .ok p =>
      if p.role == "etudiant" then .ok p else .fail .forbidden403

/-- Response of the full POST /sessions/:id/emargement route, with the
role gate in front of the handler. -/
inductive EmargementRouteResp where
  | authFail (e : AuthFail)
  | handled (r : EmargementResp)
deriving Repr, DecidableEq

/-- The POST /sessions/:id/emargement route as registered:
express.json, checkAuthEtud, validateData(emargementSchema), then the
handler.  The verified payload attached by the middleware is never
consulted by the handler. -/
def emargementRoute (db : Db) (tok : Option Token) (idSession : Nat)
    (data : EmargementData) : EmargementRouteResp × Db :=
  match checkAuthEtud tok with
  | .fail e => (.authFail e, db)
  | .ok _ =>
    let (r, db2) := emargementHandler db idSession data
    (.handled r, db2)

/-- The middleware kinds appearing in the route registrations. -/
inductive Mw where
  | expressJson
  | validateData
  | checkAuthForm
  | checkAuthEtud
deriving Repr, DecidableEq

/-- Tests whether a middleware is a role-gating one. -/
def Mw.isAuth : Mw → Bool
  | .checkAuthForm => true
  | .checkAuthEtud => true
  | _ => false

/-- Tests whether a middleware is body-schema validation. -/
def Mw.isValidate : Mw → Bool
  | .validateData => true
  | _ => false

/-- Middleware chain of POST /sessions as registered:
express.json(), validateData(sessionsSchema), checkAuthForm. -/
def postSessionsMiddleware : List Mw :=
  [.expressJson, .validateData, .checkAuthForm]

/-- Middleware chain of PUT /sessions/:id as registered:
express.json(), checkAuthForm, validateData(modifSessionsSchema). -/
def putSessionsMiddleware : List Mw :=
  [.expressJson, .checkAuthForm, .validateData]

/-- Middleware chain of POST /sessions/:id/emargement as registered:
express.json(), checkAuthEtud, validateData(emargementSchema). -/
def emargementMiddleware : List Mw :=
  [.expressJson, .checkAuthEtud, .validateData]

/-- A chain runs authorization before body validation when the first
role-gating middleware comes before the first validation middleware
(vacuously true when either is absent). -/
def authBeforeValidate (c : List Mw) : Bool :=
  match c.findIdx? Mw.isAuth, c.findIdx? Mw.isValidate with
  | some a, some v => decide (a < v)
  | _, _ => true

/-- An empty store with all auto-increment counters at 1. -/
def emptyDb : Db :=
  { users := [], sessions := [], emargements := [],
    nextUserId := 1, nextSessionId := 1, nextEmargementId := 1 }

/-- A trainer fixture row. -/
def bobTrainer : UserRow :=
  { id := 1, name := "Bob", email := "bob@x.com",
    password := bcryptHash "pw123456", role := "formateur" }

/-- A trainee fixture row. -/
def anaTrainee : UserRow :=
  { id := 2, name := "Ana", email := "a@x.com",
    password := bcryptHash "secret1", role := "etudiant" }

/-- A second trainee fixture row. -/
def eveTrainee : UserRow :=
  { id := 3, name := "Eve", email := "e@x.com",
    password := bcryptHash "secret2", role := "etudiant" }

/-- A fixture store holding the three users and one session with id 1. -/
def baseDb : Db :=
  { users := [bobTrainer, anaTrainee, eveTrainee],
    sessions := [{ id := 1, title := "Lean basics",
                   date := "2025-01-01", formateur_id := 1 }],
    emargements := [],
    nextUserId := 4, nextSessionId := 2, nextEmargementId := 1 }

theorem digitChar_isDigit (n : Nat) : (digitChar n).isDigit = true := by
  unfold digitChar
  generalize n % 10 = m
  rcases m with _|_|_|_|_|_|_|_|_|m <;> rfl

theorem isYMD_isoDatePart (d : JsDate) : isYMD d.isoDatePart = true := by
  have h : d.isoDatePart.toList =
      [digitChar (d.year / 1000), digitChar (d.year / 100),
       digitChar (d.year / 10), digitChar d.year, '-',
       digitChar (d.month / 10), digitChar d.month, '-',
       digitChar (d.day / 10), digitChar d.day] := rfl
  unfold isYMD
  rw [h]
  simp [isYMDList, digitChar_isDigit]

theorem bcryptCompare_hash (p : String) :
    bcryptCompare p (bcryptHash p) = true := by
  simp [bcryptCompare]

/-- C5: in POST /auth/login, an email matching no stored user answers
status 401, and an existing email whose password does not verify
against the stored hash also answers 401; in neither failure case does
the response carry a token. -/
theorem login_failure_cases_401_no_token (db : Db) (data : LoginData) :
    (selectUsersByEmail db data.email = [] →
      loginHandler db data = .userNotFound401 ∧
      (loginHandler db data).status = 401 ∧
      ∀ t, loginHandler db data ≠ .ok200 t) ∧
    (∀ u rest, selectUsersByEmail db data.email = u :: rest →
      bcryptCompare data.password u.password = false →
      loginHandler db data = .unauthorized401 ∧
      (loginHandler db data).status = 401 ∧
      ∀ t, loginHandler db data ≠ .ok200 t) := by
  constructor
  · intro h
    have hl : loginHandler db data = .userNotFound401 := by
      unfold loginHandler
      rw [h]
    refine ⟨hl, ?_, ?_⟩
    · rw [hl]; rfl
    · intro t ht
      rw [hl] at ht
      exact LoginResp.noConfusion ht
  · intro u rest h hpw
    have hl : loginHandler db data = .unauthorized401 := by
      unfold loginHandler
      rw [h]
      simp [hpw]
    refine ⟨hl, ?_, ?_⟩
    · rw [hl]; rfl
    · intro t ht
      rw [hl] at ht
      exact LoginResp.noConfusion ht

/-- Witness for C5 at concrete inputs: an unknown email and a known
email with a wrong password, both against the fixture store. -/
theorem login_failure_cases_401_no_token_witness :
    loginHandler baseDb { email := "nobody@x.com", password := "secret1" }
      = .userNotFound401 ∧
    loginHandler baseDb { email := "a@x.com", password := "wrongpw" }
      = .unauthorized401 :=
  ⟨((login_failure_cases_401_no_token baseDb
      { email := "nobody@x.com", password := "secret1" }).1
      (by decide)).1,
   ((login_failure_cases_401_no_token baseDb
      { email := "a@x.com", password := "wrongpw" }).2
      anaTrainee [] (by decide) (by decide)).1⟩

/-- C6: a signup accepted with status 200 followed by a login with the
same email and password answers 200 with a token signed with the
process secret whose payload holds the id assigned at signup and the
role given at signup. -/
theorem signup_then_login_succeeds (db : Db) (data : UserData)
    (out : SignupOut) (db2 : Db)
    (h : signupHandler db data = (.ok200 out, db2)) :
    loginHandler db2 { email := data.email, password := data.password } =
      .ok200 (jwtSign { id := out.id, role := data.role } jwtKey) := by
  simp only [signupHandler, execInsertUser] at h
  by_cases hdup : (db.users.any fun u => u.email == data.email) = true
  · rw [if_pos hdup] at h
    simp at h
  · rw [if_neg hdup] at h
    simp only [Prod.mk.injEq, SignupResp.ok200.injEq] at h
    obtain ⟨hout, hdb⟩ := h
    have hnil : db.users.filter (fun u => u.email == data.email) = [] := by
      rw [List.filter_eq_nil_iff]
      intro u hu hbeq
      exact hdup (List.any_eq_true.mpr ⟨u, hu, hbeq⟩)
    subst hdb
    unfold loginHandler selectUsersByEmail
    simp only [List.filter_append, hnil, List.nil_append,
      List.filter_cons, List.filter_nil, beq_self_eq_true, if_true]
    simp [bcryptCompare_hash, ← hout]

/-- Witness for C6: signing up Ana on the empty store and logging in
with her credentials yields the signed token with her id and role. -/
theorem signup_then_login_succeeds_witness :
    loginHandler
      { users := [{ id := 1, name := "Ana", email := "a@x.com",
                    password := bcryptHash "secret1",
                    role := "etudiant" }],
        sessions := [], emargements := [],
        nextUserId := 2, nextSessionId := 1, nextEmargementId := 1 }
      { email := "a@x.com", password := "secret1" } =
      .ok200 (jwtSign { id := 1, role := "etudiant" } jwtKey) :=
  signup_then_login_succeeds emptyDb
    { name := "Ana", email := "a@x.com", password := "secret1",
      role := "etudiant" }
    { id := 1, name := "Ana", email := "a@x.com", role := "etudiant" }
    _ (by decide)

/-- C1 (code bug): on the fixture store, which holds the trainer Bob
and no session with id 7, PUT /sessions/7 resolves Bob, updates zero
rows, and still answers status 200 — the handler never inspects
affectedRows, so a nonexistent session id is reported as success
instead of the NotFound the specification requires. -/
theorem update_nonexistent_session_reports_success :
    baseDb.sessions.all (fun s => !(s.id == 7)) = true ∧
    (execUpdateSession baseDb "New title" "2025-02-02" 1 7).1.affectedRows
      = 0 ∧
    (updateSessionHandler baseDb 7
      { newTitle := "New title", newDate_session := "2025-02-02",
        newFormateurName := "Bob" }).1.status = 200 := by
  refine ⟨by decide, by decide, by decide⟩

/-- C2 (code bug): on the fixture store no user has the email
ghost@x.com, yet POST /sessions answers status 500 — `rows[0].id`
throws a TypeError that the catch block maps to 500 — instead of the
NotFound the specification requires. -/
theorem create_session_unknown_email_internal_error :
    baseDb.users.all (fun u => !(u.email == "ghost@x.com")) = true ∧
    (createSessionHandler baseDb
      { email := "ghost@x.com", title := "Graph theory",
        date_session := "2025-02-02" }).1.status = 500 ∧
    ((createSessionHandler baseDb
      { email := "ghost@x.com", title := "Graph theory",
        date_session := "2025-02-02" }).1.status == 404) = false := by
  refine ⟨by decide, by decide, by decide⟩

/-- C3: recording attendance twice for the same session id and the same
trainee email performs two inserts that both answer 200 and leaves two
more attendance rows for the (session, trainee) pair than before. -/
theorem record_attendance_twice_duplicates (db : Db) (idSession : Nat)
    (data : EmargementData) (u : UserRow) (rest : List UserRow)
    (hu : selectUsersByEmail db data.email = u :: rest) :
    ((emargementHandler db idSession data).1).status = 200 ∧
    ((emargementHandler
        (emargementHandler db idSession data).2 idSession data).1).status
      = 200 ∧
    attendanceCount
      (emargementHandler
        (emargementHandler db idSession data).2 idSession data).2
      idSession u.id =
      attendanceCount db idSession u.id + 2 := by
  have step : ∀ d : Db, selectUsersByEmail d data.email = u :: rest →
      emargementHandler d idSession data =
        (.ok200 { id := d.nextEmargementId, id_session := idSession,
                  id_etudiant := u.id, status := "1" },
         { d with
           emargements := d.emargements ++
             [{ id := d.nextEmargementId, session_id := idSession,
                etudiant_id := u.id, status := "1" }],
           nextEmargementId := d.nextEmargementId + 1 }) := by
    intro d hd
    unfold emargementHandler
    rw [hd]
    rfl
  have h1 := step db hu
  have hu1 : selectUsersByEmail
      { db with
        emargements := db.emargements ++
          [{ id := db.nextEmargementId, session_id := idSession,
             etudiant_id := u.id, status := "1" }],
        nextEmargementId := db.nextEmargementId + 1 }
      data.email = u :: rest := hu
  have h2 := step _ hu1
  rw [h1]
  dsimp only
  rw [h2]
  refine ⟨rfl, rfl, ?_⟩
  dsimp only
  unfold attendanceCount
  dsimp only
  simp [List.filter_append, List.append_assoc]

/-- Witness for C3: marking Ana twice at session 1 of the fixture store
leaves two attendance rows for the pair. -/
theorem record_attendance_twice_duplicates_witness :
    attendanceCount
      (emargementHandler
        (emargementHandler baseDb 1 { email := "a@x.com" }).2
        1 { email := "a@x.com" }).2 1 anaTrainee.id =
      attendanceCount baseDb 1 anaTrainee.id + 2 :=
  (record_attendance_twice_duplicates baseDb 1 { email := "a@x.com" }
    anaTrainee [] (by decide)).2.2

/-- C9: DELETE /sessions/:id on an id matching no session affects zero
rows, is treated as success — status 200 with a body carrying an `id`
field — never an error, and leaves the store unchanged. -/
theorem delete_nonexistent_session_zero_rows_success (db : Db)
    (idSession : Nat) (h : ∀ s ∈ db.sessions, s.id ≠ idSession) :
    (execDeleteSession db idSession).1.affectedRows = 0 ∧
    (deleteSessionHandler db idSession).1 = .ok200 0 ∧
    (deleteSessionHandler db idSession).1.status = 200 ∧
    (∀ msg, (deleteSessionHandler db idSession).1 ≠ .err500 msg) ∧
    (deleteSessionHandler db idSession).2 = db := by
  have hfilter :
      db.sessions.filter (fun s => !(s.id == idSession)) = db.sessions := by
    rw [List.filter_eq_self]
    intro s hs
    simpa using h s hs
  refine ⟨?_, ?_, ?_, ?_, ?_⟩
  · unfold execDeleteSession
    simp [hfilter]
  · unfold deleteSessionHandler execDeleteSession
    rfl
  · unfold deleteSessionHandler execDeleteSession
    rfl
  · intro msg
    unfold deleteSessionHandler execDeleteSession
    simp
  · unfold deleteSessionHandler execDeleteSession
    simp [hfilter]

/-- Witness for C9: deleting the absent session id 99 from the fixture
store answers 200 with id 0 and leaves the store as it was. -/
theorem delete_nonexistent_session_witness :
    (execDeleteSession baseDb 99).1.affectedRows = 0 ∧
    (deleteSessionHandler baseDb 99).1 = .ok200 0 ∧
    (deleteSessionHandler baseDb 99).2 = baseDb := by
  have h := delete_nonexistent_session_zero_rows_success baseDb 99
    (by decide)
  exact ⟨h.1, h.2.1, h.2.2.2.2⟩

/-- C4 counterexample: against the fixture store, a caller
authenticated as Ana (user id 2, role etudiant) posts the emargement
body email of Eve; the call succeeds and the created record's trainee
id is 3 — Eve's id, not the authenticated caller's id 2. -/
theorem attendance_recorded_for_other_user :
    checkAuthEtud (some (jwtSign { id := 2, role := "etudiant" } jwtKey))
      = .ok { id := 2, role := "etudiant" } ∧
    (emargementRoute baseDb
      (some (jwtSign { id := 2, role := "etudiant" } jwtKey)) 1
      { email := "e@x.com" }).1 =
      .handled (.ok200 { id := 1, id_session := 1, id_etudiant := 3,
                         status := "1" }) ∧
    ((3 : Nat) == 2) = false := by
  refine ⟨by decide, by decide, by decide⟩

/-- C4 amended: for every successful recordAttendance call, the created
record's trainee id equals the id of the first stored user whose email
equals the email supplied in the request body — whoever the
authenticated caller is; the handler never consults the verified
payload. -/
theorem attendance_uses_body_email (db : Db) (tok : Option Token)
    (idSession : Nat) (data : EmargementData) (u : UserRow)
    (rest : List UserRow) (p : Payload)
    (hauth : checkAuthEtud tok = .ok p)
    (hu : selectUsersByEmail db data.email = u :: rest) :
    (emargementRoute db tok idSession data).1 =
      .handled (.ok200 { id := db.nextEmargementId,
                         id_session := idSession,
                         id_etudiant := u.id, status := "1" }) := by
  unfold emargementRoute
  rw [hauth]
  unfold emargementHandler
  rw [hu]
  rfl

/-- Witness for the amended C4: Ana, authenticated with her own token,
marks herself at session 1, and the record carries her id 2. -/
theorem attendance_uses_body_email_witness :
    (emargementRoute baseDb
      (some (jwtSign { id := 2, role := "etudiant" } jwtKey)) 1
      { email := "a@x.com" }).1 =
      .handled (.ok200 { id := 1, id_session := 1, id_etudiant := 2,
                         status := "1" }) :=
  attendance_uses_body_email baseDb
    (some (jwtSign { id := 2, role := "etudiant" } jwtKey)) 1
    { email := "a@x.com" } anaTrainee [] { id := 2, role := "etudiant" }
    (by decide) (by decide)

/-- C8 counterexample: on the POST /sessions route the registered chain
places validateData(sessionsSchema) before checkAuthForm, so the
claim's universal authorization-before-validation ordering fails on
that route. -/
theorem post_sessions_validates_before_auth :
    authBeforeValidate postSessionsMiddleware = false := by decide

/-- C8 amended: the role check precedes body validation on
PUT /sessions/:id and on POST /sessions/:id/emargement, but
POST /sessions runs body validation first (validateData at position 1,
checkAuthForm at position 2), so a caller without a valid credential
does receive schema errors there. -/
theorem middleware_order_per_route :
    authBeforeValidate putSessionsMiddleware = true ∧
    authBeforeValidate emargementMiddleware = true ∧
    authBeforeValidate postSessionsMiddleware = false ∧
    postSessionsMiddleware.findIdx? Mw.isValidate = some 1 ∧
    postSessionsMiddleware.findIdx? Mw.isAuth = some 2 := by decide

/-- C10: under the dateStrings configuration of connectDb, no delivered
session cell is a Date object, the formatting loop of GET /sessions is
the identity — the handler returns the rows exactly as delivered — and
GET /sessions/:id likewise answers either 404 or the delivered rows
unchanged. -/
theorem date_strings_formatting_identity (db : Db) (id : Nat) :
    connectDbConfig.dateStrings = true ∧
    (∀ row ∈ db.sessions.map (sessionRecord connectDbConfig.dateStrings),
      ∀ kv ∈ row, kv.2.isDate = false) ∧
    listSessionsHandler db =
      db.sessions.map (sessionRecord connectDbConfig.dateStrings) ∧
    (getSessionHandler db id = .notFound404 ∨
      getSessionHandler db id = .ok200
        ((db.sessions.filter (fun s => s.id == id)).map
          (sessionRecord connectDbConfig.dateStrings))) := by
  have hfr : ∀ s, formatRow (sessionRecord connectDbConfig.dateStrings s)
      = sessionRecord connectDbConfig.dateStrings s := fun s => rfl
  have hcomp : formatRow ∘ sessionRecord connectDbConfig.dateStrings =
      sessionRecord connectDbConfig.dateStrings := funext hfr
  refine ⟨rfl, ?_, ?_, ?_⟩
  · intro row hrow kv hkv
    obtain ⟨s, _, rfl⟩ := List.mem_map.mp hrow
    simp only [sessionRecord, connectDbConfig, if_true,
      List.mem_cons, List.not_mem_nil, or_false] at hkv
    rcases hkv with rfl | rfl | rfl | rfl <;> rfl
  · unfold listSessionsHandler formatRows
    rw [List.map_map, hcomp]
  · unfold getSessionHandler
    dsimp only
    by_cases hlen :
        (((db.sessions.filter (fun s => s.id == id)).map
          (sessionRecord connectDbConfig.dateStrings)).length == 0) = true
    · left
      rw [if_pos hlen]
    · right
      rw [if_neg hlen]
      unfold formatRows
      rw [List.map_map, hcomp]

/-- C7: a session created through POST /sessions is found by
GET /sessions/:id under the returned id with title and date exactly as
supplied, and — whichever way the driver materialises the stored DATE,
as raw text or as a Date object — the date cell a formatted row exposes
is text in YYYY-MM-DD form whenever the stored date has that form. -/
theorem create_get_roundtrip_and_date_form (db : Db)
    (data : SessionsData) (out : CreateSessionOut) (db2 : Db)
    (hfresh : ∀ s ∈ db.sessions, s.id < db.nextSessionId)
    (hc : createSessionHandler db data = (.ok200 out, db2)) :
    (∃ row, getSessionHandler db2 out.id = .ok200 [row] ∧
      row.lookup "title" = some (.vStr data.title) ∧
      row.lookup "date" = some (.vStr data.date_session)) ∧
    (∀ (b : Bool) (s : SessionRow), isYMD s.date = true →
      ∃ str, (formatRow (sessionRecord b s)).lookup "date" =
          some (.vStr str) ∧ isYMD str = true) := by
  constructor
  · simp only [createSessionHandler, execInsertSession] at hc
    rcases hsel : selectUsersByEmail db data.email with _ | ⟨u, rest⟩
    · rw [hsel] at hc
      simp at hc
    · rw [hsel] at hc
      simp only [Prod.mk.injEq, CreateSessionResp.ok200.injEq] at hc
      obtain ⟨hout, hdb2⟩ := hc
      subst hdb2
      have hfil : List.filter (fun s => s.id == db.nextSessionId)
          (db.sessions ++
            [({ id := db.nextSessionId, title := data.title,
                date := data.date_session,
                formateur_id := u.id } : SessionRow)]) =
          [({ id := db.nextSessionId, title := data.title,
              date := data.date_session,
              formateur_id := u.id } : SessionRow)] := by
        rw [List.filter_append]
        have h1 : db.sessions.filter (fun s => s.id == db.nextSessionId)
            = [] := by
          rw [List.filter_eq_nil_iff]
          intro s hs hbeq
          simp only [beq_iff_eq] at hbeq
          exact absurd hbeq (Nat.ne_of_lt (hfresh s hs))
        rw [h1]
        simp
      refine ⟨sessionRecord connectDbConfig.dateStrings
        { id := db.nextSessionId, title := data.title,
          date := data.date_session, formateur_id := u.id }, ?_, ?_, ?_⟩
      · unfold getSessionHandler
        rw [← hout]
        dsimp only
        rw [hfil]
        rfl
      · rfl
      · rfl
  · intro b s hymd
    cases b
    · exact ⟨(parseStoredDate s.date).isoDatePart, rfl,
        isYMD_isoDatePart _⟩
    · exact ⟨s.date, rfl, hymd⟩

/-- Witness for C7: creating the session "Logic II" on 2025-03-04 for
Bob against the fixture store and reading it back under id 2 yields the
same title and date; and a stored date materialised as a Date object is
still exposed as YYYY-MM-DD text. -/
theorem create_get_roundtrip_and_date_form_witness :
    (∃ row,
      getSessionHandler
        { users := [bobTrainer, anaTrainee, eveTrainee],
          sessions := [{ id := 1, title := "Lean basics",
                         date := "2025-01-01", formateur_id := 1 },
                       { id := 2, title := "Logic II",
                         date := "2025-03-04", formateur_id := 1 }],
          emargements := [],
          nextUserId := 4, nextSessionId := 3, nextEmargementId := 1 }
        2 = .ok200 [row] ∧
      row.lookup "title" = some (.vStr "Logic II") ∧
      row.lookup "date" = some (.vStr "2025-03-04")) ∧
    (∃ str,
      (formatRow (sessionRecord false
        { id := 5, title := "Any", date := "2025-03-04",
          formateur_id := 1 })).lookup "date" = some (.vStr str) ∧
      isYMD str = true) :=
  ⟨(create_get_roundtrip_and_date_form baseDb
      { email := "bob@x.com", title := "Logic II",
        date_session := "2025-03-04" }
      { id := 2, title := "Logic II", date := "2025-03-04",
        id_formateur := 1 }
      { users := [bobTrainer, anaTrainee, eveTrainee],
        sessions := [{ id := 1, title := "Lean basics",
                       date := "2025-01-01", formateur_id := 1 },
                     { id := 2, title := "Logic II",
                       date := "2025-03-04", formateur_id := 1 }],
        emargements := [],
        nextUserId := 4, nextSessionId := 3, nextEmargementId := 1 }
      (by decide) (by decide)).1,
   (create_get_roundtrip_and_date_form baseDb
      { email := "bob@x.com", title := "Logic II",
        date_session := "2025-03-04" }
      { id := 2, title := "Logic II", date := "2025-03-04",
        id_formateur := 1 }
      { users := [bobTrainer, anaTrainee, eveTrainee],
        sessions := [{ id := 1, title := "Lean basics",
                       date := "2025-01-01", formateur_id := 1 },
                     { id := 2, title := "Logic II",
                       date := "2025-03-04", formateur_id := 1 }],
        emargements := [],
        nextUserId := 4, nextSessionId := 3, nextEmargementId := 1 }
      (by decide) (by decide)).2 false
      { id := 5, title := "Any", date := "2025-03-04",
        formateur_id := 1 } (by decide)⟩

end TP
